import Mathlib

/-!
# starcharts: the chart controller (`controller/repositories.go`)

A shallow embedding of `IntValueFormatter`, `GetRepoChart` and `errSvg`, and the
properties of the star-history chart pipeline proved about them.

Modelling conventions.
* A Go `string` is a Lean `String`; a `[]T` slice is a `List T`.
* A `time.Time` is an integer instant (`Time`).
* A `float64` held in `TimeSeries.YValues` is represented by the natural number it
  denotes: the only values stored there are `float64(i)` for a slice index `i` and the
  constant `1`, and the conversion `float64(i)` is exact for every `i < 2^53`, far
  beyond the length any slice can have.
* A finite `float64` given to `IntValueFormatter` is represented exactly, by its sign
  bit, an integer mantissa and a binary exponent; no floating-point arithmetic is
  performed by the controller, it only prints such values.
* Calls to the logger (`log.Info`, `log.WithError`, `log.Trace`) have no effect on the
  response and are left out.
* The collaborators that are not part of the controller (the GitHub client, the clock,
  the chart renderer) are parameters, gathered in `World`.
* The standard library functions the controller calls (`fmt.Sprintf`, `errors.Is`,
  `http.Error`, the methods of `http.Header` and `http.ResponseWriter`) are embedded
  after their Go implementation, for the arguments the controller gives them.
* Well-formedness of an XML document is defined after the XML 1.0 recommendation, for
  documents made of elements, attributes, character data and references.
-/

namespace Starcharts

/-! ## Data model -/

/-- An instant (`time.Time`). -/
abbrev Time := Int

/-- One star event (`github.Stargazer`): the instant at which the star was given. -/
structure Stargazer where
  StarredAt : Time
deriving DecidableEq, Repr

/-- An RGBA colour (`drawing.Color`). -/
structure Color where
  R : Nat := 0
  G : Nat := 0
  B : Nat := 0
  A : Nat := 0
deriving DecidableEq, Repr

/-- The fields of `chart.Style` the controller sets; the others keep their zero value. -/
structure Style where
  Show : Bool := false
  StrokeColor : Color := {}
  StrokeWidth : Nat := 0
deriving DecidableEq, Repr

/-- The time series handed to the chart (`chart.TimeSeries`). -/
structure TimeSeries where
  Style : Style := {}
  XValues : List Time := []
  YValues : List Nat := []
deriving DecidableEq, Repr

/-! ## Series building (lines 79-99 of `GetRepoChart`) -/

/-- The series literal of lines 79-90: style set, no values yet. -/
def seriesLiteral : TimeSeries :=
  { Style := { Show := true, StrokeColor := { R := 129, G := 199, B := 239, A := 255 },
               StrokeWidth := 2 } }

/-- The loop `for i, star := range stargazers` of lines 91-94, started at index `i` with
the series built so far. -/
def rangeStargazers : List Stargazer → Nat → TimeSeries → TimeSeries
  | [], _, series => series
  | star :: rest, i, series =>
      rangeStargazers rest (i + 1)
        { series with
          XValues := series.XValues ++ [star.StarredAt]
          YValues := series.YValues ++ [i] }

/-- The fallback of lines 95-99: with fewer than two X values, append `(time.Now(), 1)`. -/
def addFakeResults (series : TimeSeries) (now : Time) : TimeSeries :=
  if series.XValues.length < 2 then
    { series with
      XValues := series.XValues ++ [now]
      YValues := series.YValues ++ [1] }
  else series

/-- The series `GetRepoChart` builds from the stargazers (lines 79-99); `now` is the
reading of `time.Now()` in the fallback. -/
def buildSeries (stargazers : List Stargazer) (now : Time) : TimeSeries :=
  addFakeResults (rangeStargazers stargazers 0 seriesLiteral) now

/-! ## Errors -/

/-- A non-nil Go `error` value. `new addr text` is a value made by `errors.New`: a
pointer, compared by its address `addr`, whose message is `text`. `wrap text err` is
an error with message `text` whose `Unwrap` method returns `err` (what `fmt.Errorf`
builds for the verb `%w`). -/
inductive GoError where
  | new (addr : Nat) (text : String)
  | wrap (text : String) (err : GoError)
deriving DecidableEq, Repr

/-- The method `Error() string`. -/
def GoError.Error : GoError → String
  | .new _ text => text
  | .wrap text _ => text

/-- The loop of `errors.Is` on a non-nil error: compare with the target, then unwrap. -/
def GoError.is : GoError → GoError → Bool
  | .new addr text, target => decide (GoError.new addr text = target)
  | .wrap text err, target => decide (GoError.wrap text err = target) || GoError.is err target

/-- The function `errors.Is(err, target)` for a non-nil target; `err` may be nil (`none`),
and a nil error is no error at all. -/
def errors.Is (err : Option GoError) (target : GoError) : Bool :=
  match err with
  | none => false
  | some e => e.is target

/-! ## `fmt.Sprintf` -/

/-- The text `fmt.Sprintf` appends for operands no verb consumed. -/
def extraOperands (args : List String) : List Char :=
  "%!(EXTRA ".data ++ (", ".intercalate (args.map fun s => "string=" ++ s)).data ++ [')']

/-- The function `fmt.Sprintf` on string operands, for format strings whose verbs are `%s`
and `%%` (the only ones the controller uses with strings): plain text is copied, `%s`
is replaced by the next operand, a missing operand and left-over operands are
reported the way `fmt` does. A `%` followed by any other character is outside this
fragment and is copied. -/
def sprintfChars : List Char → List String → List Char
  | [], [] => []
  | [], a :: as => extraOperands (a :: as)
  | '%' :: rest, args =>
    match rest, args with
    | [], [] => "%!(NOVERB)".data
    | [], a :: as => "%!(NOVERB)".data ++ extraOperands (a :: as)
    | '%' :: rest, args => '%' :: sprintfChars rest args
    | 's' :: rest, [] => "%!s(MISSING)".data ++ sprintfChars rest []
    | 's' :: rest, a :: as => a.data ++ sprintfChars rest as
    | c :: rest, args => '%' :: c :: sprintfChars rest args
  | c :: rest, args => c :: sprintfChars rest args

/-- The call `fmt.Sprintf(format, args...)` with string operands. -/
def Sprintf (format : String) (args : List String) : String :=
  ⟨sprintfChars format.data args⟩

/-! ## `errSvg` (lines 140-144) -/

/-- The raw string literal that is the format of `errSvg`: two line breaks, one tab, one
leading blank on the last line, and the single verb `%s`. -/
def errSvgFormat : String :=
  "<svg xmlns=\"http://www.w3.org/2000/svg\" xmlns:xlink=\"http://www.w3.org/1999/xlink\" width=\"1024\" height=\"50\">\n\t<text xmlns=\"http://www.w3.org/2000/svg\" y=\"20\" x=\"100\" fill=\"red\">%s</text>\n </svg>"

/-- The function `errSvg(err error) string`. -/
def errSvg (err : GoError) : String :=
  Sprintf errSvgFormat [err.Error]

/-! ## `IntValueFormatter` (lines 40-43) -/

/-- The value of a `float64`. A finite one is `(-1)^neg * mant * 2^exp` (every finite
`float64` has this form, with `mant < 2^53` and `-1074 ≤ exp ≤ 971`; the sign bit is kept
so that negative zero is told apart); the others are the two infinities and NaN. -/
inductive Float64 where
  | finite (neg : Bool) (mant : Nat) (exp : Int)
  | inf (neg : Bool)
  | nan
deriving DecidableEq, Repr

/-- The operands `IntValueFormatter` is given through its parameter `v interface{}`:
a `float64` (what the chart passes for a tick) or an `int`. -/
inductive GoValue where
  | float64 (f : Float64)
  | int (i : Int)
deriving DecidableEq, Repr

/-- The integer nearest to `m / 2^k`, a tie going to the even neighbour: the rounding
`strconv` applies when it shortens the exact decimal expansion of a float to the
requested precision. -/
def roundHalfEven (m k : Nat) : Nat :=
  let q := m / 2 ^ k
  let r := m % 2 ^ k
  if 2 * r < 2 ^ k then q
  else if 2 ^ k < 2 * r then q + 1
  else if q % 2 = 0 then q else q + 1

/-- The magnitude `mant * 2^exp` rounded to an integer, as the verb `%.0f` prints it. -/
def roundedMagnitude (mant : Nat) (exp : Int) : Nat :=
  match exp with
  | Int.ofNat k => mant * 2 ^ k
  | Int.negSucc k => roundHalfEven mant (k + 1)

/-- The call `fmt.Sprintf("%.0f", v)`: a `float64` is printed in fixed notation with no
digit after the point and no point (a `-` first when the sign bit is set), the
infinities and NaN by name, and an operand that is not a float as a bad-verb report. -/
def sprintfFixed0 : GoValue → String
  | .float64 (.finite neg mant exp) =>
      (if neg then "-" else "") ++ Nat.repr (roundedMagnitude mant exp)
  | .float64 (.inf false) => "+Inf"
  | .float64 (.inf true) => "-Inf"
  | .float64 .nan => "NaN"
  | .int i => "%!f(int=" ++ toString i ++ ")"

/-- The function `IntValueFormatter(v interface{}) string`. -/
def IntValueFormatter (v : GoValue) : String :=
  sprintfFixed0 v

/-! ## The chart handed to the renderer (lines 101-132) -/

/-- The fields of `chart.XAxis` the controller sets. -/
structure XAxis where
  Name : String := ""
  NameStyle : Style := {}
  Style : Style := {}

/-- The fields of `chart.YAxis` the controller sets. -/
structure YAxis where
  Name : String := ""
  NameStyle : Style := {}
  Style : Style := {}
  ValueFormatter : Option (GoValue → String) := none

/-- The fields of `chart.Chart` the controller sets. -/
structure Chart where
  XAxis : XAxis := {}
  YAxis : YAxis := {}
  Series : List TimeSeries := []

/-- The helper `chart.StyleShow()`: a style that is shown. -/
def StyleShow : Style := { Show := true }

/-- The chart literal of lines 101-132 around a series. -/
def graphLiteral (series : TimeSeries) : Chart :=
  { XAxis :=
      { Name := "Time"
        NameStyle := StyleShow
        Style := { Show := true, StrokeWidth := 2,
                   StrokeColor := { R := 85, G := 85, B := 85, A := 255 } } }
    YAxis :=
      { Name := "Stargazers"
        NameStyle := StyleShow
        Style := { Show := true, StrokeWidth := 2,
                   StrokeColor := { R := 85, G := 85, B := 85, A := 255 } }
        ValueFormatter := some IntValueFormatter }
    Series := [series] }

/-! ## The HTTP response (`net/http`) -/

/-- The valid bytes of a header field name (an HTTP token). -/
def validHeaderFieldByte (c : Char) : Bool :=
  c.isAlphanum || c.toNat ∈ [33, 35, 36, 37, 38, 39, 42, 43, 45, 46, 94, 95, 96, 124, 126]

/-- The loop of `textproto.CanonicalMIMEHeaderKey`: the first letter and every letter after
a hyphen in upper case, the others in lower case. -/
def canonicalLoop : Bool → List Char → List Char
  | _, [] => []
  | upper, c :: cs =>
      let c := if upper then c.toUpper else c.toLower
      c :: canonicalLoop (c == '-') cs

/-- The function `textproto.CanonicalMIMEHeaderKey`: a key with a byte that is no token
byte is returned unchanged. -/
def CanonicalMIMEHeaderKey (key : String) : String :=
  if key.data.all validHeaderFieldByte then ⟨canonicalLoop true key.data⟩ else key

/-- The map `http.Header`, from canonical keys to their values; an absent key has no
value. -/
abbrev Header := String → List String

/-- The method `Header.Add`. -/
def Header.Add (h : Header) (key value : String) : Header :=
  fun k => if k = CanonicalMIMEHeaderKey key then h k ++ [value] else h k

/-- The method `Header.Set`. -/
def Header.Set (h : Header) (key value : String) : Header :=
  fun k => if k = CanonicalMIMEHeaderKey key then [value] else h k

/-- The method `Header.Del`. -/
def Header.Del (h : Header) (key : String) : Header :=
  fun k => if k = CanonicalMIMEHeaderKey key then [] else h k

/-- The method `Header.Get`: the first value of the key, or the empty string. -/
def Header.Get (h : Header) (key : String) : String :=
  (h (CanonicalMIMEHeaderKey key)).headD ""

/-- The state of an `http.ResponseWriter`: the header map the handler edits, the status
line once it is written (the code, and the header map as it was at that moment, which
is what is sent), and the body bytes written so far. -/
structure ResponseWriter where
  header : Header := fun _ => []
  wroteHeader : Option (Nat × Header) := none
  body : String := ""

/-- The method `WriteHeader(code)`: the first call fixes status and headers, later calls
are ignored. -/
def ResponseWriter.WriteHeader (w : ResponseWriter) (code : Nat) : ResponseWriter :=
  match w.wroteHeader with
  | some _ => w
  | none => { w with wroteHeader := some (code, w.header) }

/-- The method `Write(b)`: writes the status line with `http.StatusOK` first when none was
written, then appends the bytes. -/
def ResponseWriter.Write (w : ResponseWriter) (b : String) : ResponseWriter :=
  let w := w.WriteHeader 200
  { w with body := w.body ++ b }

/-- The function `http.Error(w, error, code)`: deletes `Content-Length`, sets the content
type to plain text and `X-Content-Type-Options`, writes the status, and prints the
error with `fmt.Fprintln`, that is followed by a line break. -/
def http.Error (w : ResponseWriter) (error : String) (code : Nat) : ResponseWriter :=
  let h := ((w.header.Del "Content-Length").Set "Content-Type" "text/plain; charset=utf-8").Set
    "X-Content-Type-Options" "nosniff"
  let w := { w with header := h }
  let w := w.WriteHeader code
  w.Write (error ++ "\n")

/-- What the client receives. -/
structure Response where
  StatusCode : Nat
  Header : Header
  Body : String

/-- The response once the handler has returned: the server writes the status line with
`http.StatusOK` when the handler never did. -/
def ResponseWriter.finish (w : ResponseWriter) : Response :=
  match w.wroteHeader with
  | some (code, h) => { StatusCode := code, Header := h, Body := w.body }
  | none => { StatusCode := 200, Header := w.header, Body := w.body }

/-! ## `GetRepoChart` (lines 45-138) -/

/-- The two calls the handler makes on `*github.GitHub`, each as the function from its
argument to the pair it returns (the request context is left out). -/
structure GitHub (Repository : Type) where
  RepoDetails : String → Repository × Option GoError
  Stargazers : Repository → List Stargazer × Option GoError

/-- What lies outside the controller: the GitHub client, the sentinel
`github.ErrTooManyStars`, the clock (`now k` is the reading of the call number `k` of
`time.Now()`), the layout `time.RFC1123`, and `graph.Render(chart.SVG, w)`, which
returns the bytes it wrote to `w` and its error. -/
structure World (Repository : Type) where
  gh : GitHub Repository
  ErrTooManyStars : GoError
  now : Nat → Time
  formatRFC1123 : Time → String
  Render : Chart → String × Option GoError

/-- The handler returned by `GetRepoChart`, run on a fresh response writer for the route
variables `owner` and `repo`. Each `return` of the Go code ends a branch here. Since
`errors.Is` is false on a nil error, the branch of line 70 always has an error to give
to `errSvg`. The bytes `graph.Render` writes go to the response whether or not it
reports an error, which is only logged. -/
def GetRepoChart {Repository : Type} (world : World Repository) (owner repo : String) :
    ResponseWriter :=
  let w : ResponseWriter := {}
  let name := Sprintf "%s/%s" [owner, repo]
  match world.gh.RepoDetails name with
  | (_, some err) => http.Error w err.Error 400
  | (repo, none) =>
    let w := { w with header := w.header.Add "content-type" "image/svg+xml;charset=utf-8" }
    let w := { w with header := w.header.Add "cache-control" "public, max-age=86400" }
    let w := { w with header := w.header.Add "date" (world.formatRFC1123 (world.now 0)) }
    let w := { w with header := w.header.Add "expires" (world.formatRFC1123 (world.now 1)) }
    match world.gh.Stargazers repo with
    | (stargazers, err) =>
      if errors.Is err world.ErrTooManyStars then
        match err with
        | some err => w.Write (errSvg err)
        | none => w
      else
        match err with
        | some err => http.Error w err.Error 503
        | none =>
          let series := buildSeries stargazers (world.now 2)
          let graph := graphLiteral series
          w.Write (world.Render graph).1

/-- The response of the chart route. -/
def chartResponse {Repository : Type} (world : World Repository) (owner repo : String) :
    Response :=
  (GetRepoChart world owner repo).finish

/-! ## Well-formed XML documents

The property the error graphic is checked against, after the XML 1.0 recommendation:
a text is scanned into tags and character data, and the tags are nested into a tree.
Comments, processing instructions, CDATA sections and declarations are not handled:
a text that holds one is not accepted. -/

/-- A node of an XML document: an element with its attributes and children, or a run of
character data. -/
inductive XmlNode where
  | element (name : String) (attrs : List (String × String)) (children : List XmlNode)
  | text (data : String)
deriving Repr

/-- The pieces of markup and character data an XML document is made of. -/
inductive XmlToken where
  | startTag (name : String) (attrs : List (String × String))
  | endTag (name : String)
  | emptyTag (name : String) (attrs : List (String × String))
  | chars (data : String)
deriving DecidableEq, Repr

/-- The production `Char` of XML 1.0. -/
def isXmlChar (c : Char) : Bool :=
  let n := c.toNat
  n = 0x9 || n = 0xA || n = 0xD || (0x20 ≤ n && n ≤ 0xD7FF) || (0xE000 ≤ n && n ≤ 0xFFFD)
    || (0x10000 ≤ n && n ≤ 0x10FFFF)

/-- The production `S` of XML 1.0: blank, tab, line feed, carriage return. -/
def isXmlSpace (c : Char) : Bool :=
  c = ' ' || c = '\t' || c = '\n' || c = '\r'

/-- The production `NameStartChar` of XML 1.0. -/
def isNameStartChar (c : Char) : Bool :=
  let n := c.toNat
  c = ':' || c = '_' || (0x41 ≤ n && n ≤ 0x5A) || (0x61 ≤ n && n ≤ 0x7A)
    || (0xC0 ≤ n && n ≤ 0xD6) || (0xD8 ≤ n && n ≤ 0xF6) || (0xF8 ≤ n && n ≤ 0x2FF)
    || (0x370 ≤ n && n ≤ 0x37D) || (0x37F ≤ n && n ≤ 0x1FFF) || (0x200C ≤ n && n ≤ 0x200D)
    || (0x2070 ≤ n && n ≤ 0x218F) || (0x2C00 ≤ n && n ≤ 0x2FEF) || (0x3001 ≤ n && n ≤ 0xD7FF)
    || (0xF900 ≤ n && n ≤ 0xFDCF) || (0xFDF0 ≤ n && n ≤ 0xFFFD) || (0x10000 ≤ n && n ≤ 0xEFFFF)

/-- The production `NameChar` of XML 1.0. -/
def isNameChar (c : Char) : Bool :=
  let n := c.toNat
  isNameStartChar c || c = '-' || c = '.' || (0x30 ≤ n && n ≤ 0x39) || n = 0xB7
    || (0x300 ≤ n && n ≤ 0x36F) || (0x203F ≤ n && n ≤ 0x2040)

/-- The production `Name`: a name start character followed by name characters. -/
def isName (s : List Char) : Bool :=
  match s with
  | [] => false
  | c :: cs => isNameStartChar c && cs.all isNameChar

/-- The value of a run of digits in the given base, `none` when a character is no digit
of that base or the run is empty. -/
def digitsValue (base : Nat) (s : List Char) : Option Nat :=
  if s = [] then none
  else s.foldl (fun acc c =>
    match acc with
    | none => none
    | some v =>
      let n := c.toNat
      if 0x30 ≤ n ∧ n ≤ 0x39 then some (v * base + (n - 0x30))
      else if base = 16 ∧ 0x61 ≤ n ∧ n ≤ 0x66 then some (v * base + (n - 0x61 + 10))
      else if base = 16 ∧ 0x41 ≤ n ∧ n ≤ 0x46 then some (v * base + (n - 0x41 + 10))
      else none) (some 0)

/-- The text between `&` and `;` of a reference that a document without declarations may
hold: one of the five predefined entities, or the number of a legal character. -/
def isReference (s : List Char) : Bool :=
  match s with
  | '#' :: 'x' :: hex =>
      match digitsValue 16 hex with
      | some v => v < 0x110000 && isXmlChar (Char.ofNat v)
      | none => false
  | '#' :: dec =>
      match digitsValue 10 dec with
      | some v => v < 0x110000 && isXmlChar (Char.ofNat v)
      | none => false
  | _ => s = "lt".data || s = "gt".data || s = "amp".data || s = "apos".data || s = "quot".data

/-- Every `&` in the text starts a reference that is closed by `;` and allowed; the
second argument is the reference being read, its characters in reverse. -/
def referencesOk : List Char → Option (List Char) → Bool
  | [], none => true
  | [], some _ => false
  | c :: cs, none => if c = '&' then referencesOk cs (some []) else referencesOk cs none
  | c :: cs, some acc =>
      if c = ';' then isReference acc.reverse && referencesOk cs none
      else referencesOk cs (some (c :: acc))

/-- The text holds the sequence `]]>`, which character data must not. -/
def hasCDataEnd : List Char → Bool
  | [] => false
  | c :: cs => (c = ']' && (cs.take 2 == [']', '>'])) || hasCDataEnd cs

/-- The production `CharData` with references: legal characters, no `<`, every `&` the
start of a reference, and no `]]>`. -/
def charDataOk (s : List Char) : Bool :=
  s.all (fun c => isXmlChar c && c != '<') && referencesOk s none && !hasCDataEnd s

/-- The attributes of a tag, read from the text after the element name: each is
preceded by white space and has the form `name="value"` or with single quotes; the
flag tells whether the tag ends in `/`. The first argument bounds the number of
attributes read. -/
def parseAttrs : Nat → List Char → Option (List (String × String) × Bool)
  | 0, _ => none
  | fuel + 1, s =>
    let s1 := s.dropWhile isXmlSpace
    match s1 with
    | [] => some ([], false)
    | ['/'] => some ([], true)
    | _ =>
      if s1.length = s.length then none
      else
        let name := s1.takeWhile isNameChar
        match ((s1.dropWhile isNameChar).dropWhile isXmlSpace) with
        | '=' :: r =>
          match r.dropWhile isXmlSpace with
          | q :: r =>
            if (q = '"' ∨ q = Char.ofNat 39) ∧ isName name then
              let value := r.takeWhile (fun c => c != q)
              match r.dropWhile (fun c => c != q) with
              | _ :: r =>
                if value.all (fun c => isXmlChar c && c != '<') && referencesOk value none then
                  match parseAttrs fuel r with
                  | some (attrs, empty) => some ((String.mk name, String.mk value) :: attrs, empty)
                  | none => none
                else none
              | [] => none
            else none
          | [] => none
        | _ => none

/-- The tag whose text between `<` and `>` is given: an end tag `/name`, or a start or
empty-element tag with attributes of distinct names. Comments, processing
instructions, CDATA sections and declarations are outside this fragment and give
`none`. -/
def parseTag (s : List Char) : Option XmlToken :=
  match s with
  | '/' :: rest =>
      let name := rest.takeWhile isNameChar
      if isName name ∧ (rest.dropWhile isNameChar).all isXmlSpace then
        some (.endTag (String.mk name))
      else none
  | _ =>
      let name := s.takeWhile isNameChar
      let after := s.dropWhile isNameChar
      if isName name then
        match parseAttrs (after.length + 1) after with
        | some (attrs, empty) =>
          if (attrs.map Prod.fst).Nodup then
            some (if empty then .emptyTag (String.mk name) attrs
              else .startTag (String.mk name) attrs)
          else none
        | none => none
      else none

/-- Where the scanner is: in character data (read so far, in reverse), or inside a tag
(read so far, in reverse), there possibly inside a quoted attribute value. -/
inductive ScanMode where
  | content (acc : List Char)
  | markup (acc : List Char) (quote : Option Char)

/-- The token for the character data read, none when there is none. -/
def flushText (acc : List Char) : Option (List XmlToken) :=
  if acc = [] then some []
  else if charDataOk acc.reverse then some [.chars (String.mk acc.reverse)]
  else none

/-- The tokens of a document, `none` when some markup or character data is malformed. -/
def scan : List Char → ScanMode → Option (List XmlToken)
  | [], .content acc => flushText acc
  | [], .markup _ _ => none
  | c :: cs, .content acc =>
      if c = '<' then
        match flushText acc, scan cs (.markup [] none) with
        | some t, some ts => some (t ++ ts)
        | _, _ => none
      else scan cs (.content (c :: acc))
  | c :: cs, .markup acc none =>
      if c = '>' then
        match parseTag acc.reverse, scan cs (.content []) with
        | some t, some ts => some (t :: ts)
        | _, _ => none
      else if c = '<' then none
      else if c = '"' ∨ c = Char.ofNat 39 then scan cs (.markup (c :: acc) (some c))
      else scan cs (.markup (c :: acc) none)
  | c :: cs, .markup acc (some q) =>
      if c = q then scan cs (.markup (c :: acc) none)
      else if c = '<' then none
      else scan cs (.markup (c :: acc) (some q))

/-- An element whose start tag was read and whose end tag was not yet: its children so
far are in reverse. -/
structure OpenElement where
  name : String
  attrs : List (String × String)
  children : List XmlNode

/-- Adds a finished node below the innermost open element, or makes it the root. -/
def place (node : XmlNode) (stack : List OpenElement) (root : Option XmlNode) :
    Option (List OpenElement × Option XmlNode) :=
  match stack, root with
  | parent :: outer, _ => some ({ parent with children := node :: parent.children } :: outer, root)
  | [], none => some ([], some node)
  | [], some _ => none

/-- The tree of a token sequence: tags must nest, there is exactly one root element, and
outside of it only white space. -/
def build : List XmlToken → List OpenElement → Option XmlNode → Option XmlNode
  | [], [], root => root
  | [], _ :: _, _ => none
  | .chars data :: rest, [], root =>
      if data.data.all isXmlSpace then build rest [] root else none
  | .chars data :: rest, parent :: outer, root =>
      build rest ({ parent with children := .text data :: parent.children } :: outer) root
  | .startTag name attrs :: rest, stack, root =>
      if stack.isEmpty && root.isSome then none
      else build rest ({ name := name, attrs := attrs, children := [] } :: stack) root
  | .emptyTag name attrs :: rest, stack, root =>
      match place (.element name attrs []) stack root with
      | some (stack, root) => build rest stack root
      | none => none
  | .endTag name :: rest, stack, root =>
      match stack with
      | [] => none
      | el :: outer =>
        if el.name = name then
          match place (.element el.name el.attrs el.children.reverse) outer root with
          | some (stack, root) => build rest stack root
          | none => none
        else none

/-- The element tree of a text, when the text is a well-formed XML document. -/
def parseXml (s : String) : Option XmlNode :=
  match scan s.data (.content []) with
  | some tokens => build tokens [] none
  | none => none

/-- The text of a tag, read from inside or outside a quoted value: it closes every
quote it opens, and holds no `<` and, outside quotes, no `>`. -/
def tagText : List Char → Option Char → Bool
  | [], none => true
  | [], some _ => false
  | c :: cs, none =>
      c != '>' && c != '<' && tagText cs (if c = '"' ∨ c = Char.ofNat 39 then some c else none)
  | c :: cs, some q => if c = q then tagText cs none else c != '<' && tagText cs (some q)

/-- The text nodes for a run of character data: none for the empty run. -/
def textNodes (data : String) : List XmlNode :=
  if data.data = [] then [] else [.text data]

/-! ## Definitions used in the statements -/

/-- The text of `errSvg` before the message: the root `svg` start tag, a line break, a
tab, and the start tag of the `text` element. -/
def errSvgOpen : String :=
  "<svg xmlns=\"http://www.w3.org/2000/svg\" xmlns:xlink=\"http://www.w3.org/1999/xlink\" width=\"1024\" height=\"50\">\n\t<text xmlns=\"http://www.w3.org/2000/svg\" y=\"20\" x=\"100\" fill=\"red\">"

/-- The text of `errSvg` after the message: the two end tags. -/
def errSvgClose : String :=
  "</text>\n </svg>"

/-- The start tag of the root element of `errSvg`. -/
def errSvgRootTag : String :=
  "<svg xmlns=\"http://www.w3.org/2000/svg\" xmlns:xlink=\"http://www.w3.org/1999/xlink\" width=\"1024\" height=\"50\">"

/-- The header map of the handler after its four `Header().Add` calls (lines 64-67). -/
def chartHeader (date expires : String) : Header :=
  (((Header.Add (fun _ => []) "content-type" "image/svg+xml;charset=utf-8").Add
    "cache-control" "public, max-age=86400").Add "date" date).Add "expires" expires

/-- The header map `http.Error` leaves, starting from the map `h`. -/
def errorHeader (h : Header) : Header :=
  ((h.Del "Content-Length").Set "Content-Type" "text/plain; charset=utf-8").Set
    "X-Content-Type-Options" "nosniff"

/-- The name `owner/repo` the handler resolves (lines 51-55). -/
def repoName (owner repo : String) : String :=
  Sprintf "%s/%s" [owner, repo]

/-- A sentinel for the samples: one `errors.New` value. -/
def sampleErrTooManyStars : GoError :=
  .new 0 "repo has too many stargazers"

/-- A world over a one-point repository type whose collaborators return the given
results, with a clock stuck at `0` and a renderer that writes `<svg/>`. -/
def sampleWorld (details : Option GoError) (stars : List Stargazer × Option GoError) :
    World Unit :=
  { gh := { RepoDetails := fun _ => ((), details), Stargazers := fun _ => stars }
    ErrTooManyStars := sampleErrTooManyStars
    now := fun _ => 0
    formatRFC1123 := fun _ => "Thu, 01 Jan 1970 00:00:00 UTC"
    Render := fun _ => ("<svg/>", none) }

/-- The exact value `mant * 2^exp` of the magnitude of a finite float, as a rational. -/
def magnitude (mant : Nat) (exp : Int) : ℚ :=
  (mant : ℚ) * 2 ^ exp

/-- The document `errSvg` is meant to produce around a message: the root `svg` with its
four attributes, holding white space, one `text` element whose only content is the
message, and white space. -/
def errSvgTree (message : String) : XmlNode :=
  .element "svg"
    [("xmlns", "http://www.w3.org/2000/svg"), ("xmlns:xlink", "http://www.w3.org/1999/xlink"),
      ("width", "1024"), ("height", "50")]
    [.text "\n\t",
      .element "text"
        [("xmlns", "http://www.w3.org/2000/svg"), ("y", "20"), ("x", "100"), ("fill", "red")]
        (textNodes message),
      .text "\n "]

/-- The tokens of the document `errSvg` is meant to produce around a message. -/
def errSvgTokens (message : String) : List XmlToken :=
  .startTag "svg"
      [("xmlns", "http://www.w3.org/2000/svg"), ("xmlns:xlink", "http://www.w3.org/1999/xlink"),
        ("width", "1024"), ("height", "50")]
    :: .chars "\n\t"
    :: .startTag "text"
      [("xmlns", "http://www.w3.org/2000/svg"), ("y", "20"), ("x", "100"), ("fill", "red")]
    :: ((if message.data = [] then [] else [.chars message])
      ++ [.endTag "text", .chars "\n ", .endTag "svg"])

/-- An error that wraps the sample sentinel and whose message holds `<` and `&`. -/
def sampleMarkupError : GoError :=
  .wrap "rate limit < 5000 & rising: repo has too many stargazers" sampleErrTooManyStars

/-- An error that wraps the sample sentinel and whose message holds tags. -/
def sampleTagError : GoError :=
  .wrap "</text><text>repo has too many stargazers" sampleErrTooManyStars

/-- An error that wraps the sample sentinel and whose message holds `]]>`. -/
def sampleCDataEndError : GoError :=
  .wrap "reply [[1,2]]> limit: repo has too many stargazers" sampleErrTooManyStars

/-- An error that wraps the sample sentinel and whose message holds a control
character. -/
def sampleControlError : GoError :=
  .wrap "bad byte \x01 in reply: repo has too many stargazers" sampleErrTooManyStars

/-! ## Lemmas on the series loop -/

theorem rangeStargazers_XValues (l : List Stargazer) (i : Nat) (s : TimeSeries) :
    (rangeStargazers l i s).XValues = s.XValues ++ l.map Stargazer.StarredAt := by
  induction l generalizing i s with
  | nil => simp [rangeStargazers]
  | cons a l ih => simp [rangeStargazers, ih]

theorem rangeStargazers_YValues (l : List Stargazer) (i : Nat) (s : TimeSeries) :
    (rangeStargazers l i s).YValues = s.YValues ++ List.range' i l.length := by
  induction l generalizing i s with
  | nil => simp [rangeStargazers]
  | cons a l ih => simp [rangeStargazers, ih, List.range'_succ]

theorem buildSeries_XValues (l : List Stargazer) (now : Time) :
    (buildSeries l now).XValues
      = l.map Stargazer.StarredAt ++ (if l.length < 2 then [now] else []) := by
  unfold buildSeries addFakeResults
  simp only [rangeStargazers_XValues, seriesLiteral, List.nil_append, List.length_map]
  split <;> simp [rangeStargazers_XValues]

theorem buildSeries_YValues (l : List Stargazer) (now : Time) :
    (buildSeries l now).YValues
      = List.range l.length ++ (if l.length < 2 then [1] else []) := by
  unfold buildSeries addFakeResults
  simp only [rangeStargazers_XValues, seriesLiteral, List.nil_append, List.length_map]
  split <;> simp [rangeStargazers_YValues, List.range_eq_range']

/-! ## Lemmas on `Sprintf` and `errSvg` -/

theorem sprintfChars_plain (pre rest : List Char) (args : List String)
    (h : ∀ c ∈ pre, c ≠ '%') :
    sprintfChars (pre ++ rest) args = pre ++ sprintfChars rest args := by
  induction pre with
  | nil => rfl
  | cons c pre ih =>
    have hc : c ≠ '%' := h c (List.mem_cons_self _ _)
    have ih' := ih (fun d hd => h d (List.mem_cons_of_mem _ hd))
    simp [sprintfChars, hc, ih']

theorem sprintfChars_plain_nil (post : List Char) (h : ∀ c ∈ post, c ≠ '%') :
    sprintfChars post [] = post := by
  have := sprintfChars_plain post [] [] h
  simpa [sprintfChars] using this

theorem sprintfChars_verb_s (rest : List Char) (a : String) (as : List String) :
    sprintfChars ('%' :: 's' :: rest) (a :: as) = a.data ++ sprintfChars rest as := by
  simp [sprintfChars]

set_option maxRecDepth 100000 in
theorem errSvgFormat_data :
    errSvgFormat.data = errSvgOpen.data ++ '%' :: 's' :: errSvgClose.data := by
  decide

set_option maxRecDepth 100000 in
theorem errSvgOpen_data :
    errSvgOpen.data = errSvgRootTag.data ++ "\n\t<text xmlns=\"http://www.w3.org/2000/svg\" y=\"20\" x=\"100\" fill=\"red\">".data := by
  decide

set_option maxRecDepth 100000 in
theorem errSvg_eq (err : GoError) : errSvg err = errSvgOpen ++ err.Error ++ errSvgClose := by
  have h1 : ∀ c ∈ errSvgOpen.data, c ≠ '%' := by decide
  have h2 : ∀ c ∈ errSvgClose.data, c ≠ '%' := by decide
  apply String.ext
  simp only [errSvg, Sprintf, errSvgFormat_data, String.data_append]
  rw [sprintfChars_plain _ _ _ h1, sprintfChars_verb_s, sprintfChars_plain_nil _ h2]
  simp

/-! ## The four outcomes of `GetRepoChart` -/

theorem chartResponse_resolution_error {Repository : Type} (world : World Repository)
    (owner repo : String) (err : GoError)
    (h : (world.gh.RepoDetails (repoName owner repo)).2 = some err) :
    chartResponse world owner repo
      = { StatusCode := 400, Header := errorHeader (fun _ => []), Body := err.Error ++ "\n" } := by
  unfold chartResponse GetRepoChart
  rcases hrd : world.gh.RepoDetails (Sprintf "%s/%s" [owner, repo]) with ⟨r, oe⟩
  have : oe = some err := by simpa [repoName, hrd] using h
  subst this
  simp [hrd, http.Error, ResponseWriter.WriteHeader, ResponseWriter.Write,
    ResponseWriter.finish, errorHeader]

theorem chartResponse_too_many_stars {Repository : Type} (world : World Repository)
    (owner repo : String) (err : GoError)
    (hd : (world.gh.RepoDetails (repoName owner repo)).2 = none)
    (hs : (world.gh.Stargazers (world.gh.RepoDetails (repoName owner repo)).1).2 = some err)
    (hi : errors.Is (some err) world.ErrTooManyStars = true) :
    chartResponse world owner repo
      = { StatusCode := 200
          Header := chartHeader (world.formatRFC1123 (world.now 0))
            (world.formatRFC1123 (world.now 1))
          Body := errSvg err } := by
  unfold chartResponse GetRepoChart
  rcases hrd : world.gh.RepoDetails (Sprintf "%s/%s" [owner, repo]) with ⟨r, oe⟩
  simp only [repoName, hrd] at hd hs
  subst hd
  rcases hst : world.gh.Stargazers r with ⟨l, oe⟩
  simp only [hst] at hs
  subst hs
  simp [hrd, hst, hi, ResponseWriter.WriteHeader, ResponseWriter.Write,
    ResponseWriter.finish, chartHeader]

theorem chartResponse_retrieval_error {Repository : Type} (world : World Repository)
    (owner repo : String) (err : GoError)
    (hd : (world.gh.RepoDetails (repoName owner repo)).2 = none)
    (hs : (world.gh.Stargazers (world.gh.RepoDetails (repoName owner repo)).1).2 = some err)
    (hi : errors.Is (some err) world.ErrTooManyStars = false) :
    chartResponse world owner repo
      = { StatusCode := 503
          Header := errorHeader (chartHeader (world.formatRFC1123 (world.now 0))
            (world.formatRFC1123 (world.now 1)))
          Body := err.Error ++ "\n" } := by
  unfold chartResponse GetRepoChart
  rcases hrd : world.gh.RepoDetails (Sprintf "%s/%s" [owner, repo]) with ⟨r, oe⟩
  simp only [repoName, hrd] at hd hs
  subst hd
  rcases hst : world.gh.Stargazers r with ⟨l, oe⟩
  simp only [hst] at hs
  subst hs
  simp [hrd, hst, hi, http.Error, ResponseWriter.WriteHeader, ResponseWriter.Write,
    ResponseWriter.finish, chartHeader, errorHeader]

theorem chartResponse_chart {Repository : Type} (world : World Repository)
    (owner repo : String)
    (hd : (world.gh.RepoDetails (repoName owner repo)).2 = none)
    (hs : (world.gh.Stargazers (world.gh.RepoDetails (repoName owner repo)).1).2 = none) :
    chartResponse world owner repo
      = { StatusCode := 200
          Header := chartHeader (world.formatRFC1123 (world.now 0))
            (world.formatRFC1123 (world.now 1))
          Body := (world.Render (graphLiteral (buildSeries
            (world.gh.Stargazers (world.gh.RepoDetails (repoName owner repo)).1).1
            (world.now 2)))).1 } := by
  unfold chartResponse GetRepoChart
  rcases hrd : world.gh.RepoDetails (Sprintf "%s/%s" [owner, repo]) with ⟨r, oe⟩
  simp only [repoName, hrd] at hd hs ⊢
  subst hd
  rcases hst : world.gh.Stargazers r with ⟨l, oe⟩
  simp only [hst] at hs
  subst hs
  simp [hrd, hst, errors.Is, ResponseWriter.WriteHeader, ResponseWriter.Write,
    ResponseWriter.finish, chartHeader]

/-! ## Header lookups -/

theorem canonical_content_type : CanonicalMIMEHeaderKey "content-type" = "Content-Type" := by
  decide

theorem canonical_cache_control :
    CanonicalMIMEHeaderKey "cache-control" = "Cache-Control" := by
  decide

theorem canonical_date : CanonicalMIMEHeaderKey "date" = "Date" := by
  decide

theorem canonical_expires : CanonicalMIMEHeaderKey "expires" = "Expires" := by
  decide

theorem canonical_Content_Type : CanonicalMIMEHeaderKey "Content-Type" = "Content-Type" := by
  decide

theorem canonical_Content_Length :
    CanonicalMIMEHeaderKey "Content-Length" = "Content-Length" := by
  decide

theorem canonical_nosniff :
    CanonicalMIMEHeaderKey "X-Content-Type-Options" = "X-Content-Type-Options" := by
  decide

theorem chartHeader_content_type (date expires : String) :
    (chartHeader date expires).Get "content-type" = "image/svg+xml;charset=utf-8" := by
  simp [chartHeader, Header.Get, Header.Add, canonical_content_type, canonical_cache_control,
    canonical_date, canonical_expires]

theorem chartHeader_cache_control (date expires : String) :
    (chartHeader date expires).Get "cache-control" = "public, max-age=86400" := by
  simp [chartHeader, Header.Get, Header.Add, canonical_content_type, canonical_cache_control,
    canonical_date, canonical_expires]

theorem errorHeader_content_type (h : Header) :
    (errorHeader h).Get "content-type" = "text/plain; charset=utf-8" := by
  simp [errorHeader, Header.Get, Header.Set, Header.Del, canonical_content_type,
    canonical_Content_Type, canonical_Content_Length, canonical_nosniff]

/-! ## Series building: the claims -/

/-- C1. For every sequence of `N ≥ 2` star events the built series has exactly `N`
points, its Y values are `0, 1, ..., N-1` in that order and its X values are the
timestamps of the events in the input order. -/
theorem series_of_two_or_more (stargazers : List Stargazer) (now : Time)
    (h : 2 ≤ stargazers.length) :
    (buildSeries stargazers now).XValues = stargazers.map Stargazer.StarredAt
      ∧ (buildSeries stargazers now).YValues = List.range stargazers.length
      ∧ (buildSeries stargazers now).XValues.length = stargazers.length
      ∧ (buildSeries stargazers now).YValues.length = stargazers.length := by
  have hlt : ¬ stargazers.length < 2 := by omega
  have hx := buildSeries_XValues stargazers now
  have hy := buildSeries_YValues stargazers now
  simp only [hlt, if_false, List.append_nil] at hx hy
  simp [hx, hy]

/-- Witness of C1: three star events at the instants 10, 20, 30. -/
theorem series_of_two_or_more_witness :
    (buildSeries [⟨10⟩, ⟨20⟩, ⟨30⟩] 99).XValues = [10, 20, 30]
      ∧ (buildSeries [⟨10⟩, ⟨20⟩, ⟨30⟩] 99).YValues = [0, 1, 2] := by
  have h := series_of_two_or_more [⟨10⟩, ⟨20⟩, ⟨30⟩] 99 (by decide)
  exact ⟨h.1, h.2.1⟩

/-- C2, at the input the code gets wrong. With no star event the fallback runs once and
the built series has one point, `(now, 1)`: it has no second point, and it is still
shorter than the two points the guard of the fallback asks for. -/
theorem series_of_no_stargazers (now : Time) :
    (buildSeries [] now).XValues = [now]
      ∧ (buildSeries [] now).YValues = [1]
      ∧ (buildSeries [] now).XValues.length = 1
      ∧ (buildSeries [] now).YValues[1]? = none
      ∧ (buildSeries [] now).XValues.length < 2 := by
  simp [buildSeries, rangeStargazers, addFakeResults, seriesLiteral]

/-- C10. For every input of `N` star events and clock value `now`, the built series is
the `N` real points `(t_i, i)` in order, followed exactly when `N < 2` by the single
point `(now, 1)`; its length is `N + 1` when `N < 2` and `N` otherwise, and X and Y
have the same length. -/
theorem series_fallback (stargazers : List Stargazer) (now : Time) :
    (buildSeries stargazers now).XValues
        = stargazers.map Stargazer.StarredAt ++ (if stargazers.length < 2 then [now] else [])
      ∧ (buildSeries stargazers now).YValues
        = List.range stargazers.length ++ (if stargazers.length < 2 then [1] else [])
      ∧ (buildSeries stargazers now).XValues.length
        = (if stargazers.length < 2 then stargazers.length + 1 else stargazers.length)
      ∧ (buildSeries stargazers now).XValues.length
        = (buildSeries stargazers now).YValues.length := by
  have hx := buildSeries_XValues stargazers now
  have hy := buildSeries_YValues stargazers now
  refine ⟨hx, hy, ?_, ?_⟩
  · rw [hx]; split <;> simp
  · rw [hx, hy]; split <;> simp

/-! ## `errSvg`: the claims -/

/-- C6. For every error, `errSvg` returns the fixed opening text, then the message of
the error verbatim, then the fixed closing text; so the message is a contiguous part
of the result, the result starts with the root `svg` start tag declaring
`width="1024"` and `height="50"`, and two errors with the same message give the
same string. -/
theorem errSvg_shape (err : GoError) :
    errSvg err = errSvgOpen ++ err.Error ++ errSvgClose
      ∧ err.Error.data <:+: (errSvg err).data
      ∧ errSvgRootTag.data <+: (errSvg err).data
      ∧ " width=\"1024\" height=\"50\">".data <:+ errSvgRootTag.data
      ∧ ∀ err2 : GoError, err2.Error = err.Error → errSvg err2 = errSvg err := by
  refine ⟨errSvg_eq err, ?_, ?_, ?_, ?_⟩
  · rw [errSvg_eq]
    exact ⟨errSvgOpen.data, errSvgClose.data, by simp⟩
  · rw [errSvg_eq, String.data_append, String.data_append, errSvgOpen_data]
    simp only [List.append_assoc]
    exact List.prefix_append _ _
  · exact ⟨"<svg xmlns=\"http://www.w3.org/2000/svg\" xmlns:xlink=\"http://www.w3.org/1999/xlink\"".data, by
      decide⟩
  · intro err2 h
    rw [errSvg_eq, errSvg_eq, h]

/-! ## The responses of `GetRepoChart`: the claims -/

/-- C3. When metadata resolution succeeds and stargazer retrieval returns an error that
is or wraps the too-many-stars sentinel, the response has status 200, its body is
exactly `errSvg` of that error (the fixed error graphic around the message of the
error), and no chart is built: the response is the same whatever the renderer is. -/
theorem too_many_stars_response {Repository : Type} (world : World Repository)
    (owner repo : String) (err : GoError)
    (hd : (world.gh.RepoDetails (repoName owner repo)).2 = none)
    (hs : (world.gh.Stargazers (world.gh.RepoDetails (repoName owner repo)).1).2 = some err)
    (hi : errors.Is (some err) world.ErrTooManyStars = true) :
    (chartResponse world owner repo).StatusCode = 200
      ∧ (chartResponse world owner repo).Body = errSvg err
      ∧ (chartResponse world owner repo).Body = errSvgOpen ++ err.Error ++ errSvgClose
      ∧ ∀ render : Chart → String × Option GoError,
          chartResponse { world with Render := render } owner repo
            = chartResponse world owner repo := by
  have h := chartResponse_too_many_stars world owner repo err hd hs hi
  refine ⟨by rw [h], by rw [h], by rw [h, errSvg_eq], ?_⟩
  intro render
  rw [h]
  exact chartResponse_too_many_stars { world with Render := render } owner repo err hd hs hi

/-- Witness of C3: retrieval returns an error that wraps the sentinel. -/
theorem too_many_stars_response_witness :
    (chartResponse (sampleWorld none ([], some (.wrap "listing stars: repo has too many stargazers"
        sampleErrTooManyStars))) "caarlos0" "starcharts").StatusCode = 200
      ∧ (chartResponse (sampleWorld none ([], some (.wrap "listing stars: repo has too many stargazers"
        sampleErrTooManyStars))) "caarlos0" "starcharts").Body
        = errSvg (.wrap "listing stars: repo has too many stargazers" sampleErrTooManyStars) := by
  have h := too_many_stars_response
    (sampleWorld none ([], some (.wrap "listing stars: repo has too many stargazers"
      sampleErrTooManyStars))) "caarlos0" "starcharts"
    (.wrap "listing stars: repo has too many stargazers" sampleErrTooManyStars)
    rfl rfl (by decide)
  exact ⟨h.1, h.2.1⟩

/-- C4 as stated fails: when resolution fails with "repository not found" the status is
400 but the body is that text followed by a line break, so it is not equal to the
error text. -/
theorem resolution_error_body_differs :
    (chartResponse (sampleWorld (some (.new 1 "repository not found")) ([], none))
        "caarlos0" "missing").StatusCode = 400
      ∧ (chartResponse (sampleWorld (some (.new 1 "repository not found")) ([], none))
        "caarlos0" "missing").Body = "repository not found\n"
      ∧ (chartResponse (sampleWorld (some (.new 1 "repository not found")) ([], none))
        "caarlos0" "missing").Body ≠ GoError.Error (.new 1 "repository not found") := by
  have h := chartResponse_resolution_error
    (sampleWorld (some (.new 1 "repository not found")) ([], none)) "caarlos0" "missing"
    (.new 1 "repository not found") rfl
  rw [h]
  decide

/-- C4, amended. For every error returned by metadata resolution the response has
status 400, its body is the error text followed by one line break, its content type
is plain text, and stargazer retrieval is never attempted: the response is the same
whatever retrieval would return. -/
theorem resolution_error_response {Repository : Type} (world : World Repository)
    (owner repo : String) (err : GoError)
    (h : (world.gh.RepoDetails (repoName owner repo)).2 = some err) :
    (chartResponse world owner repo).StatusCode = 400
      ∧ (chartResponse world owner repo).Body = err.Error ++ "\n"
      ∧ (chartResponse world owner repo).Header.Get "content-type" = "text/plain; charset=utf-8"
      ∧ ∀ stargazers : Repository → List Stargazer × Option GoError,
          chartResponse { world with gh := { world.gh with Stargazers := stargazers } } owner repo
            = chartResponse world owner repo := by
  have hr := chartResponse_resolution_error world owner repo err h
  refine ⟨by rw [hr], by rw [hr], by rw [hr]; exact errorHeader_content_type _, ?_⟩
  intro stargazers
  rw [hr]
  exact chartResponse_resolution_error
    { world with gh := { world.gh with Stargazers := stargazers } } owner repo err h

/-- Witness of C4 amended: resolution fails with "repository not found". -/
theorem resolution_error_response_witness :
    (chartResponse (sampleWorld (some (.new 1 "repository not found")) ([⟨5⟩], none))
        "caarlos0" "missing").StatusCode = 400
      ∧ (chartResponse (sampleWorld (some (.new 1 "repository not found")) ([⟨5⟩], none))
        "caarlos0" "missing").Body = "repository not found" ++ "\n" := by
  have h := resolution_error_response
    (sampleWorld (some (.new 1 "repository not found")) ([⟨5⟩], none)) "caarlos0" "missing"
    (.new 1 "repository not found") rfl
  exact ⟨h.1, h.2.1⟩

set_option maxRecDepth 100000 in
theorem errSvg_ne_line (err : GoError) : err.Error ++ "\n" ≠ errSvg err := by
  intro h
  have hl := congrArg String.length h
  rw [errSvg_eq] at hl
  have h1 : errSvgOpen.length = 177 := by decide
  simp only [String.length_append, h1] at hl
  have h2 : "\n".length = 1 := by decide
  omega

/-- C5. Given that metadata resolution succeeds, the status is 503 exactly when
stargazer retrieval fails with an error that is not (and does not wrap) the
too-many-stars sentinel; in that case the body is the error message and a line break,
sent as plain text, and no SVG is written: the body is not the error graphic, and the
response is the same whatever the renderer is. -/
theorem service_unavailable_iff {Repository : Type} (world : World Repository)
    (owner repo : String)
    (hd : (world.gh.RepoDetails (repoName owner repo)).2 = none) :
    ((chartResponse world owner repo).StatusCode = 503
        ↔ ∃ err, (world.gh.Stargazers (world.gh.RepoDetails (repoName owner repo)).1).2 = some err
            ∧ errors.Is (some err) world.ErrTooManyStars = false)
      ∧ ∀ err, (world.gh.Stargazers (world.gh.RepoDetails (repoName owner repo)).1).2 = some err →
          errors.Is (some err) world.ErrTooManyStars = false →
          (chartResponse world owner repo).Body = err.Error ++ "\n"
            ∧ err.Error.data <+: (chartResponse world owner repo).Body.data
            ∧ (chartResponse world owner repo).Body ≠ errSvg err
            ∧ (chartResponse world owner repo).Header.Get "content-type"
                = "text/plain; charset=utf-8"
            ∧ ∀ render : Chart → String × Option GoError,
                chartResponse { world with Render := render } owner repo
                  = chartResponse world owner repo := by
  constructor
  · cases hs : (world.gh.Stargazers (world.gh.RepoDetails (repoName owner repo)).1).2 with
    | none =>
      rw [chartResponse_chart world owner repo hd hs]
      simp
    | some e =>
      cases hi : errors.Is (some e) world.ErrTooManyStars with
      | true =>
        rw [chartResponse_too_many_stars world owner repo e hd hs hi]
        simp [hi]
      | false =>
        rw [chartResponse_retrieval_error world owner repo e hd hs hi]
        simp [hi]
  · intro err hs hi
    have h := chartResponse_retrieval_error world owner repo err hd hs hi
    refine ⟨by rw [h], ?_, ?_, ?_, ?_⟩
    · rw [h]
      exact ⟨"\n".data, by simp⟩
    · rw [h]
      exact errSvg_ne_line err
    · rw [h]
      exact errorHeader_content_type _
    · intro render
      rw [h]
      exact chartResponse_retrieval_error { world with Render := render } owner repo err hd hs hi

/-- Witness of C5: retrieval fails with a network error. -/
theorem service_unavailable_iff_witness :
    (chartResponse (sampleWorld none ([], some (.new 2 "connection reset by peer")))
        "caarlos0" "starcharts").StatusCode = 503
      ∧ (chartResponse (sampleWorld none ([], some (.new 2 "connection reset by peer")))
        "caarlos0" "starcharts").Body = "connection reset by peer" ++ "\n" := by
  have h := service_unavailable_iff
    (sampleWorld none ([], some (.new 2 "connection reset by peer"))) "caarlos0" "starcharts" rfl
  exact ⟨h.1.mpr ⟨.new 2 "connection reset by peer", rfl, by decide⟩,
    (h.2 (.new 2 "connection reset by peer") rfl (by decide)).1⟩

/-- C8. Whenever the response has status 200, whether its body is a chart or the
too-many-stars error graphic, its headers have content-type equal to
`image/svg+xml;charset=utf-8` and a cache-control value that contains
`max-age=86400`. -/
theorem success_headers {Repository : Type} (world : World Repository) (owner repo : String)
    (h : (chartResponse world owner repo).StatusCode = 200) :
    (chartResponse world owner repo).Header.Get "content-type" = "image/svg+xml;charset=utf-8"
      ∧ "max-age=86400".data <:+:
          ((chartResponse world owner repo).Header.Get "cache-control").data := by
  have hcc : "max-age=86400".data <:+: "public, max-age=86400".data :=
    ⟨"public, ".data, [], by decide⟩
  cases hd : (world.gh.RepoDetails (repoName owner repo)).2 with
  | some e =>
    rw [chartResponse_resolution_error world owner repo e hd] at h
    simp at h
  | none =>
    cases hs : (world.gh.Stargazers (world.gh.RepoDetails (repoName owner repo)).1).2 with
    | none =>
      rw [chartResponse_chart world owner repo hd hs]
      exact ⟨chartHeader_content_type _ _, by
        simp only [chartHeader_cache_control]; exact hcc⟩
    | some e =>
      cases hi : errors.Is (some e) world.ErrTooManyStars with
      | true =>
        rw [chartResponse_too_many_stars world owner repo e hd hs hi]
        exact ⟨chartHeader_content_type _ _, by
          simp only [chartHeader_cache_control]; exact hcc⟩
      | false =>
        rw [chartResponse_retrieval_error world owner repo e hd hs hi] at h
        simp at h

/-- Witness of C8: a repository with two stargazers, rendered as a chart. -/
theorem success_headers_witness :
    (chartResponse (sampleWorld none ([⟨10⟩, ⟨20⟩], none)) "caarlos0" "starcharts").StatusCode = 200
      ∧ (chartResponse (sampleWorld none ([⟨10⟩, ⟨20⟩], none)) "caarlos0"
          "starcharts").Header.Get "content-type" = "image/svg+xml;charset=utf-8" := by
  have h200 : (chartResponse (sampleWorld none ([⟨10⟩, ⟨20⟩], none)) "caarlos0"
      "starcharts").StatusCode = 200 := by
    rw [chartResponse_chart _ _ _ rfl rfl]
  exact ⟨h200, (success_headers _ "caarlos0" "starcharts" h200).1⟩

/-! ## `IntValueFormatter`: lemmas and the claim -/

theorem digitChar_isDigit (d : Nat) (h : d < 10) : (Nat.digitChar d).isDigit = true := by
  interval_cases d <;> decide

theorem toDigitsCore_isDigit (fuel n : Nat) (acc : List Char)
    (hacc : ∀ c ∈ acc, c.isDigit = true) :
    ∀ c ∈ Nat.toDigitsCore 10 fuel n acc, c.isDigit = true := by
  induction fuel generalizing n acc with
  | zero => simpa [Nat.toDigitsCore] using hacc
  | succ fuel ih =>
    have hd : (Nat.digitChar (n % 10)).isDigit = true :=
      digitChar_isDigit _ (Nat.mod_lt _ (by decide))
    have hacc2 : ∀ c ∈ Nat.digitChar (n % 10) :: acc, c.isDigit = true := by
      intro c hc
      rcases List.mem_cons.mp hc with h | h
      · rw [h]; exact hd
      · exact hacc c h
    unfold Nat.toDigitsCore
    simp only
    split
    · exact hacc2
    · exact ih _ _ hacc2

theorem repr_isDigit (n : Nat) : ∀ c ∈ (Nat.repr n).data, c.isDigit = true := by
  simp only [Nat.repr, Nat.toDigits, List.asString]
  exact toDigitsCore_isDigit _ _ _ (by simp)

theorem roundHalfEven_near (m k : Nat) :
    |((roundHalfEven m k : Nat) : ℚ) - (m : ℚ) / 2 ^ k| ≤ 1 / 2 := by
  have hP : (0 : ℚ) < 2 ^ k := by positivity
  have hPn : 0 < 2 ^ k := by positivity
  have hm : (m : ℚ) = ((m / 2 ^ k : Nat) : ℚ) * 2 ^ k + ((m % 2 ^ k : Nat) : ℚ) := by
    have := Nat.div_add_mod m (2 ^ k)
    have h2 : ((2 ^ k * (m / 2 ^ k) + m % 2 ^ k : Nat) : ℚ) = (m : ℚ) := by rw [this]
    push_cast at h2
    linarith
  have hr : m % 2 ^ k < 2 ^ k := Nat.mod_lt _ hPn
  have hdiv : (m : ℚ) / 2 ^ k = ((m / 2 ^ k : Nat) : ℚ) + ((m % 2 ^ k : Nat) : ℚ) / 2 ^ k := by
    rw [hm]
    field_simp
  have hx0 : (0 : ℚ) ≤ ((m % 2 ^ k : Nat) : ℚ) / 2 ^ k := by positivity
  have hlow : 2 * (m % 2 ^ k) ≤ 2 ^ k → ((m % 2 ^ k : Nat) : ℚ) / 2 ^ k ≤ 1 / 2 := by
    intro h
    have hc : ((2 * (m % 2 ^ k) : Nat) : ℚ) ≤ ((2 ^ k : Nat) : ℚ) := by exact_mod_cast h
    push_cast at hc
    rw [div_le_iff₀ hP]
    linarith
  have hhigh : 2 ^ k ≤ 2 * (m % 2 ^ k) → 1 / 2 ≤ ((m % 2 ^ k : Nat) : ℚ) / 2 ^ k := by
    intro h
    have hc : ((2 ^ k : Nat) : ℚ) ≤ ((2 * (m % 2 ^ k) : Nat) : ℚ) := by exact_mod_cast h
    push_cast at hc
    rw [le_div_iff₀ hP]
    linarith
  have hx1 : ((m % 2 ^ k : Nat) : ℚ) / 2 ^ k ≤ 1 := by
    have hc : ((m % 2 ^ k : Nat) : ℚ) ≤ ((2 ^ k : Nat) : ℚ) := by exact_mod_cast hr.le
    push_cast at hc
    rw [div_le_iff₀ hP]
    linarith
  rw [hdiv, abs_le]
  unfold roundHalfEven
  simp only
  split
  · have := hlow (by omega)
    constructor <;> linarith
  · split
    · have := hhigh (by omega)
      push_cast
      constructor <;> linarith
    · have h1 := hlow (by omega)
      have h2 := hhigh (by omega)
      split
      · constructor <;> linarith
      · push_cast
        constructor <;> linarith

theorem roundedMagnitude_near (mant : Nat) (exp : Int) :
    |((roundedMagnitude mant exp : Nat) : ℚ) - (mant : ℚ) * 2 ^ exp| ≤ 1 / 2 := by
  cases exp with
  | ofNat k =>
    simp [roundedMagnitude]
  | negSucc k =>
    have h := roundHalfEven_near mant (k + 1)
    simp only [roundedMagnitude, zpow_negSucc]
    rw [← div_eq_mul_inv]
    exact h

/-- C9 as stated fails: the float `-1.0` (sign bit set, `2^52 * 2^-52`) is formatted as
`-1`, which is not the decimal text of a non-negative integer. -/
theorem IntValueFormatter_negative :
    IntValueFormatter (.float64 (.finite true 4503599627370496 (-52))) = "-1"
      ∧ (IntValueFormatter (.float64 (.finite true 4503599627370496 (-52)))).data.all
          Char.isDigit = false
      ∧ ¬ ∃ n : Nat,
          IntValueFormatter (.float64 (.finite true 4503599627370496 (-52))) = Nat.repr n := by
  have h : IntValueFormatter (.float64 (.finite true 4503599627370496 (-52))) = "-1" := by
    decide
  refine ⟨h, by rw [h]; decide, ?_⟩
  rintro ⟨n, hn⟩
  rw [h] at hn
  have hd := repr_isDigit n '-' (by rw [← hn]; decide)
  exact absurd hd (by decide)

set_option exponentiation.threshold 2000 in
/-- C9, amended. For every finite tick value that is not negative (sign bit clear,
magnitude `mant * 2^exp`), the result is the decimal text of a natural number `n`, made
of digits only (so with no `.` and no fractional digits), and `n` is an integer nearest
to the value: it differs from it by at most one half. In particular `0` formats as
`0`, `15` as `15`, `3.0` as `3` and `12.7` as `13`. -/
theorem IntValueFormatter_nonneg (mant : Nat) (exp : Int) :
    IntValueFormatter (.float64 (.finite false mant exp)) = Nat.repr (roundedMagnitude mant exp)
      ∧ (∀ c ∈ (IntValueFormatter (.float64 (.finite false mant exp))).data, c.isDigit = true)
      ∧ '.' ∉ (IntValueFormatter (.float64 (.finite false mant exp))).data
      ∧ |((roundedMagnitude mant exp : Nat) : ℚ) - magnitude mant exp| ≤ 1 / 2
      ∧ IntValueFormatter (.float64 (.finite false 0 (-1074))) = "0"
      ∧ IntValueFormatter (.float64 (.finite false 8444249301319680 (-49))) = "15"
      ∧ IntValueFormatter (.float64 (.finite false 6755399441055744 (-51))) = "3"
      ∧ IntValueFormatter (.float64 (.finite false 7149464408450662 (-49))) = "13" := by
  have h : IntValueFormatter (.float64 (.finite false mant exp))
      = Nat.repr (roundedMagnitude mant exp) := by
    simp [IntValueFormatter, sprintfFixed0]
  refine ⟨h, ?_, ?_, roundedMagnitude_near mant exp, by decide, by decide, by decide, by decide⟩
  · rw [h]
    exact repr_isDigit _
  · rw [h]
    intro hmem
    exact absurd (repr_isDigit _ '.' hmem) (by decide)

/-! ## Lemmas on the scanner -/

theorem scan_content_chunk (t rest acc : List Char) (h : ∀ c ∈ t, c ≠ '<') :
    scan (t ++ rest) (.content acc) = scan rest (.content (t.reverse ++ acc)) := by
  induction t generalizing acc with
  | nil => rfl
  | cons c t ih =>
    have hc : c ≠ '<' := h c (List.mem_cons_self _ _)
    have ih' := ih (c :: acc) (fun d hd => h d (List.mem_cons_of_mem _ hd))
    simp [scan, hc, ih']

theorem scan_markup_chunk (t rest acc : List Char) (q : Option Char)
    (h : tagText t q = true) :
    scan (t ++ rest) (.markup acc q) = scan rest (.markup (t.reverse ++ acc) none) := by
  induction t generalizing acc q with
  | nil =>
    cases q with
    | none => rfl
    | some q => simp [tagText] at h
  | cons c t ih =>
    cases q with
    | none =>
      simp only [tagText, Bool.and_eq_true, bne_iff_ne, ne_eq] at h
      obtain ⟨⟨h1, h2⟩, h3⟩ := h
      by_cases hq : c = '"' ∨ c = Char.ofNat 39
      · simp only [hq, if_true] at h3
        have := ih (c :: acc) _ h3
        simp [scan, h1, h2, hq, this]
      · simp only [hq, if_false] at h3
        have := ih (c :: acc) _ h3
        simp [scan, h1, h2, hq, this]
    | some q =>
      by_cases hq : c = q
      · subst hq
        simp only [tagText, if_true] at h
        have := ih (c :: acc) _ h
        simp [scan, this]
      · simp only [tagText, hq, if_false, Bool.and_eq_true, bne_iff_ne, ne_eq] at h
        have := ih (c :: acc) _ h.2
        simp [scan, hq, h.1, this]

theorem scan_text_then_tag (w t rest : List Char) (tw : List XmlToken) (tk : XmlToken)
    (hw : ∀ c ∈ w, c ≠ '<') (ht : tagText t none = true)
    (hfw : flushText w.reverse = some tw) (htk : parseTag t = some tk) :
    scan (w ++ '<' :: (t ++ '>' :: rest)) (.content [])
      = (scan rest (.content [])).map (fun ts => tw ++ tk :: ts) := by
  rw [scan_content_chunk w _ [] hw]
  simp only [List.append_nil]
  rw [scan]
  simp only [if_true]
  rw [scan_markup_chunk t _ [] none ht]
  simp only [List.append_nil]
  rw [scan]
  simp only [if_true, List.reverse_reverse, hfw, htk]
  cases scan rest (.content []) <;> rfl

theorem referencesOk_of_no_amp (s : List Char) (h : ∀ c ∈ s, c ≠ '&') :
    referencesOk s none = true := by
  induction s with
  | nil => rfl
  | cons c s ih =>
    have hc : c ≠ '&' := h c (List.mem_cons_self _ _)
    simp [referencesOk, hc, ih (fun d hd => h d (List.mem_cons_of_mem _ hd))]

theorem infix_of_hasCDataEnd (s : List Char) (h : hasCDataEnd s = true) :
    [']', ']', '>'] <:+: s := by
  induction s with
  | nil => simp [hasCDataEnd] at h
  | cons c s ih =>
    simp only [hasCDataEnd, Bool.or_eq_true, Bool.and_eq_true, decide_eq_true_eq,
      beq_iff_eq] at h
    rcases h with ⟨hc, ht⟩ | h
    · refine ⟨[], s.drop 2, ?_⟩
      have := List.take_append_drop 2 s
      rw [ht] at this
      rw [hc, ← this]
      rfl
    · obtain ⟨a, b, hab⟩ := ih h
      exact ⟨c :: a, b, by simp [← hab]⟩

theorem charDataOk_of_plain (s : List Char)
    (h : ∀ c ∈ s, c ≠ '<' ∧ c ≠ '&' ∧ isXmlChar c = true)
    (hcd : ¬ [']', ']', '>'] <:+: s) : charDataOk s = true := by
  have h1 : referencesOk s none = true := referencesOk_of_no_amp s (fun c hc => (h c hc).2.1)
  have h2 : hasCDataEnd s = false := by
    cases hh : hasCDataEnd s with
    | false => rfl
    | true => exact absurd (infix_of_hasCDataEnd s hh) hcd
  have h3 : s.all (fun c => isXmlChar c && c != '<') = true := by
    rw [List.all_eq_true]
    intro c hc
    have := h c hc
    simp [this.1, this.2.2]
  simp [charDataOk, h1, h2, h3]

theorem flushText_of_ok (s : List Char) (h : charDataOk s = true) :
    flushText s.reverse = some (if s = [] then [] else [.chars (String.mk s)]) := by
  unfold flushText
  by_cases hs : s = []
  · simp [hs]
  · simp [hs, h]

set_option maxRecDepth 100000 in
theorem errSvg_data (err : GoError) :
    (errSvg err).data
      = [] ++ '<' :: ("svg xmlns=\"http://www.w3.org/2000/svg\" xmlns:xlink=\"http://www.w3.org/1999/xlink\" width=\"1024\" height=\"50\"".data
        ++ '>' :: ("\n\t".data
        ++ '<' :: ("text xmlns=\"http://www.w3.org/2000/svg\" y=\"20\" x=\"100\" fill=\"red\"".data
        ++ '>' :: (err.Error.data
        ++ '<' :: ("/text".data
        ++ '>' :: ("\n ".data
        ++ '<' :: ("/svg".data ++ '>' :: []))))))) := by
  have hopen : errSvgOpen.data
      = '<' :: ("svg xmlns=\"http://www.w3.org/2000/svg\" xmlns:xlink=\"http://www.w3.org/1999/xlink\" width=\"1024\" height=\"50\"".data
        ++ '>' :: ("\n\t".data
        ++ '<' :: ("text xmlns=\"http://www.w3.org/2000/svg\" y=\"20\" x=\"100\" fill=\"red\"".data
        ++ ['>']))) := by decide
  have hclose : errSvgClose.data
      = '<' :: ("/text".data ++ '>' :: ("\n ".data ++ '<' :: ("/svg".data ++ '>' :: []))) := by
    decide
  rw [errSvg_eq, String.data_append, String.data_append, hopen, hclose]
  simp only [List.append_assoc, List.cons_append, List.nil_append]

set_option maxRecDepth 100000 in
theorem scan_errSvg (err : GoError) (h : charDataOk err.Error.data = true) :
    scan (errSvg err).data (.content []) = some (errSvgTokens err.Error) := by
  have hw : ∀ c ∈ err.Error.data, c ≠ '<' := by
    intro c hc
    simp only [charDataOk, Bool.and_eq_true, List.all_eq_true, bne_iff_ne, ne_eq] at h
    exact (h.1.1 c hc).2
  have h1 : parseTag "svg xmlns=\"http://www.w3.org/2000/svg\" xmlns:xlink=\"http://www.w3.org/1999/xlink\" width=\"1024\" height=\"50\"".data
      = some (.startTag "svg"
          [("xmlns", "http://www.w3.org/2000/svg"),
            ("xmlns:xlink", "http://www.w3.org/1999/xlink"), ("width", "1024"),
            ("height", "50")]) := by
    decide
  have h2 : parseTag "text xmlns=\"http://www.w3.org/2000/svg\" y=\"20\" x=\"100\" fill=\"red\"".data
      = some (.startTag "text"
          [("xmlns", "http://www.w3.org/2000/svg"), ("y", "20"), ("x", "100"),
            ("fill", "red")]) := by
    decide
  have h3 : parseTag "/text".data = some (.endTag "text") := by decide
  have h4 : parseTag "/svg".data = some (.endTag "svg") := by decide
  rw [errSvg_data]
  rw [scan_text_then_tag [] _ _ [] _ (by simp) (by decide) (by decide) h1]
  rw [scan_text_then_tag "\n\t".data _ _ [.chars "\n\t"] _ (by decide) (by decide) (by decide)
    h2]
  rw [scan_text_then_tag err.Error.data _ _ _ _ hw (by decide) (flushText_of_ok _ h) h3]
  rw [scan_text_then_tag "\n ".data _ _ [.chars "\n "] _ (by decide) (by decide) (by decide)
    h4]
  simp [scan, flushText, errSvgTokens]

theorem build_errSvgTokens (message : String) :
    build (errSvgTokens message) [] none = some (errSvgTree message) := by
  by_cases h : message.data = []
  · simp [errSvgTokens, errSvgTree, textNodes, h, build, place]
  · simp [errSvgTokens, errSvgTree, textNodes, h, build, place]

/-! ## `errSvg` as an XML document: the claim -/

set_option maxRecDepth 100000 in
/-- C7 as stated fails, for errors that wrap the sentinel (so `errors.Is` sends them to
`errSvg`): a message with `<` and `&` gives a text that is no well-formed document;
a message with tags gives a document whose root has two `text` children, the message
being markup and not character data; and so do not parse a message with `]]>` or
with a control character. -/
theorem errSvg_markup_in_message :
    errors.Is (some sampleMarkupError) sampleErrTooManyStars = true
      ∧ sampleMarkupError.Error = "rate limit < 5000 & rising: repo has too many stargazers"
      ∧ parseXml (errSvg sampleMarkupError) = none
      ∧ errors.Is (some sampleTagError) sampleErrTooManyStars = true
      ∧ parseXml (errSvg sampleTagError)
        = some (.element "svg"
            [("xmlns", "http://www.w3.org/2000/svg"),
              ("xmlns:xlink", "http://www.w3.org/1999/xlink"), ("width", "1024"),
              ("height", "50")]
            [.text "\n\t",
              .element "text"
                [("xmlns", "http://www.w3.org/2000/svg"), ("y", "20"), ("x", "100"),
                  ("fill", "red")] [],
              .element "text" [] [.text "repo has too many stargazers"],
              .text "\n "])
      ∧ parseXml (errSvg sampleCDataEndError) = none
      ∧ parseXml (errSvg sampleControlError) = none := by
  refine ⟨by decide, rfl, ?_, by decide, ?_, ?_, ?_⟩
  · exact Option.isNone_iff_eq_none.mp (by decide)
  · rfl
  · exact Option.isNone_iff_eq_none.mp (by decide)
  · exact Option.isNone_iff_eq_none.mp (by decide)

/-- C7, amended. For every error whose message is plain character data (legal XML
characters, none of them `<` or `&`, and no `]]>`), `errSvg` produces a well-formed
document: one `svg` root holding one `text` element, whose only content is the
message as character data. The message is copied without escaping. -/
theorem errSvg_wellFormed (err : GoError)
    (h : ∀ c ∈ err.Error.data, c ≠ '<' ∧ c ≠ '&' ∧ isXmlChar c = true)
    (hcd : ¬ "]]>".data <:+: err.Error.data) :
    parseXml (errSvg err) = some (errSvgTree err.Error) := by
  have hok : charDataOk err.Error.data = true := charDataOk_of_plain _ h hcd
  unfold parseXml
  rw [scan_errSvg err hok]
  exact build_errSvgTokens err.Error

/-- Witness of C7 amended: the sentinel itself. -/
theorem errSvg_wellFormed_witness :
    parseXml (errSvg sampleErrTooManyStars) = some (errSvgTree "repo has too many stargazers") :=
  errSvg_wellFormed sampleErrTooManyStars (by decide) (by decide)

end Starcharts
